import Mathlib

/-
Verification of the ChemML adaptive model-selection engine
(src/qemlflow/core/enhanced_models.py): a shallow embedding of the
AutoMLModel orchestrator, its trial objective, the hyperparameter search
space, and the voting ensemble, together with theorems settling the
frozen specification claims.

Numeric scores are embedded as exact rationals; the single irrational
operation in the code (np.sqrt at the end of the rmse branch) is kept
symbolic in the value domain so that every definition stays executable.
-/

namespace ChemML

/-- Metrics dictionaries returned by model fit methods: name-value pairs. -/
abbrev Metrics := List (String × ℚ)

/-- Optimization direction of an optuna study. -/
inductive Direction
  | minimize
  | maximize
deriving DecidableEq

/-- Direction chosen by AutoMLModel.fit, line 640 of enhanced_models.py:
minimize exactly for the metrics rmse, mse, mae, otherwise maximize. -/
def chooseDirection (metric : String) : Direction :=
  if metric = "rmse" ∨ metric = "mse" ∨ metric = "mae" then Direction.minimize
  else Direction.maximize

/-- Metric resolution and direction selection of AutoMLModel.fit,
lines 630-641: the metric auto resolves to rmse (regression, minimized)
or accuracy (classification, maximized); any other metric keeps its name
and gets the direction of chooseDirection. -/
def metricAndDirection (optimizationMetric taskType : String) : String × Direction :=
  if optimizationMetric = "auto" then
    if taskType = "regression" then ("rmse", Direction.minimize)
    else ("accuracy", Direction.maximize)
  else (optimizationMetric, chooseDirection optimizationMetric)

/-- Value domain of the trial objective: either an exact rational, or the
real square root of a rational radicand (the rmse branch, line 760,
applies np.sqrt to the mean squared error; the root is kept symbolic so
values remain exactly representable and computable). -/
inductive ObjValue
  | exact (q : ℚ)
  | sqrtv (q : ℚ)
deriving DecidableEq

/-- Strict order on objective values, agreeing with the order of the real
numbers they denote when sqrtv radicands are nonnegative: the square root
is strictly monotone, and for 0 ≤ a the comparison of the root of a with
a rational b compares a with the square of b on the matching sign. -/
def ObjValue.ltv : ObjValue → ObjValue → Prop
  | ObjValue.exact a, ObjValue.exact b => a < b
  | ObjValue.exact a, ObjValue.sqrtv b => (a < 0 ∧ 0 ≤ b) ∨ (0 ≤ a ∧ a ^ 2 < b)
  | ObjValue.sqrtv a, ObjValue.exact b => 0 < b ∧ a < b ^ 2
  | ObjValue.sqrtv a, ObjValue.sqrtv b => a < b

instance : (a b : ObjValue) → Decidable (ObjValue.ltv a b)
  | ObjValue.exact a, ObjValue.exact b => inferInstanceAs (Decidable (a < b))
  | ObjValue.exact a, ObjValue.sqrtv b =>
      inferInstanceAs (Decidable ((a < 0 ∧ 0 ≤ b) ∨ (0 ≤ a ∧ a ^ 2 < b)))
  | ObjValue.sqrtv a, ObjValue.exact b => inferInstanceAs (Decidable (0 < b ∧ a < b ^ 2))
  | ObjValue.sqrtv a, ObjValue.sqrtv b => inferInstanceAs (Decidable (a < b))

/-- The denoted real value has magnitude strictly below one million; for a
symbolic root this requires a well-defined (nonnegative) radicand below
the square of one million. -/
def ObjValue.magLtMillion : ObjValue → Prop
  | ObjValue.exact q => |q| < 1000000
  | ObjValue.sqrtv q => 0 ≤ q ∧ q < 1000000 ^ 2

instance : (a : ObjValue) → Decidable (ObjValue.magLtMillion a)
  | ObjValue.exact q => inferInstanceAs (Decidable (|q| < 1000000))
  | ObjValue.sqrtv q => inferInstanceAs (Decidable (0 ≤ q ∧ q < 1000000 ^ 2))

/-- Arithmetic mean of a list of rationals (numpy mean of the fold scores). -/
def mean (xs : List ℚ) : ℚ := xs.sum / xs.length

/-- External numeric steps of one candidate evaluation: model construction
by AutoMLModel._create_model (which may raise, e.g. on an invalid
configuration), and sklearn cross_val_score, which given a scoring name
and the number of splits either raises or returns one score per fold
(error_score is set to raise in the source, so fold failures propagate). -/
structure EvalOracle where
  createModel : Except String Unit
  crossVal : String → ℕ → Except String (List ℚ)

/-- Penalty returned by the except branch of the objective, lines 793-799:
one million for the metrics rmse and neg_mse (minimized), minus one
million otherwise (maximized). -/
def penaltyScore (metric : String) : ObjValue :=
  if metric = "rmse" ∨ metric = "neg_mse" then ObjValue.exact 1000000
  else ObjValue.exact (-1000000)

/-- Scoring dispatch of the objective, lines 750-791: each metric picks an
sklearn scoring name, runs cross-validation, and post-processes the fold
scores; the rmse branch takes the square root of the mean squared error,
the default branch (any metric other than rmse, r2, accuracy - including
auc, which has no branch of its own) negates the mean of the
neg_mean_squared_error fold scores, giving the mean squared error. -/
def scoreFromCV (metric : String) (cv : String → Except String (List ℚ)) :
    Except String ObjValue :=
  if metric = "rmse" then
    Except.map
      (fun scores => if 0 < scores.length then ObjValue.sqrtv (-(mean scores))
                     else ObjValue.exact 1000000)
      (cv "neg_mean_squared_error")
  else if metric = "r2" then
    Except.map
      (fun scores => if 0 < scores.length then ObjValue.exact (mean scores)
                     else ObjValue.exact (-1000000))
      (cv "r2")
  else if metric = "accuracy" then
    Except.map
      (fun scores => if 0 < scores.length then ObjValue.exact (mean scores)
                     else ObjValue.exact 0)
      (cv "accuracy")
  else
    Except.map
      (fun scores => if 0 < scores.length then ObjValue.exact (-(mean scores))
                     else ObjValue.exact 1000000)
      (cv "neg_mean_squared_error")

/-- Number of cross-validation splits chosen by the objective, lines
726-748: for classification with more than one class, a StratifiedKFold
with min(cv_folds, number of classes) splits - whose constructor raises
ValueError when that is below 2, in which case the inner except falls
back to KFold with min(cv_folds, n // 2) splits; otherwise (regression)
directly KFold with min(cv_folds, n // 2) splits. -/
def chosenSplits (taskType : String) (nClasses n cvFolds : ℕ) : ℕ :=
  if taskType = "classification" ∧ 1 < nClasses then
    if min cvFolds nClasses < 2 then min cvFolds (n / 2) else min cvFolds nClasses
  else min cvFolds (n / 2)

/-- Body of the try block of the objective: construct the model, build the
fold splitter (sklearn KFold and StratifiedKFold constructors raise when
the number of splits is below 2), then cross-validate and score. -/
def evalWithSplits (metric : String) (k : ℕ) (o : EvalOracle) :
    Except String ObjValue :=
  Except.bind o.createModel (fun _ =>
    if k < 2 then Except.error "k-fold cross-validation requires at least 2 splits"
    else scoreFromCV metric (fun scoring => o.crossVal scoring k))

/-- One candidate evaluation inside the objective returned by
AutoMLModel._create_objective, lines 715-799: the whole try block, with
any exception converted to the penalty score by the except branch. -/
def objectiveEval (taskType metric : String) (nClasses n cvFolds : ℕ)
    (o : EvalOracle) : ObjValue :=
  match evalWithSplits metric (chosenSplits taskType nClasses n cvFolds) o with
  | Except.ok v => v
  | Except.error _ => penaltyScore metric

/-- Oracle whose model construction succeeds and whose cross-validation
returns the given fold scores for every scoring name and split count. -/
def constOracle (scores : List ℚ) : EvalOracle :=
  { createModel := Except.ok ()
    crossVal := fun _ _ => Except.ok scores }

/-- One hyperparameter sampling instruction issued to the optuna trial:
an integer range, a float range with its log-scale flag (optuna
suggest_float defaults to a linear scale when the log argument is not
passed), or a categorical choice list. -/
inductive ParamSpec
  | intP (name : String) (lo hi : ℤ)
  | floatP (name : String) (lo hi : ℚ) (logScale : Bool)
  | catP (name : String) (choices : List String)
deriving DecidableEq

/-- The sampling instruction draws from a bounded, nonempty range. -/
def ParamSpec.rangeBounded : ParamSpec → Prop
  | ParamSpec.intP _ lo hi => lo ≤ hi
  | ParamSpec.floatP _ lo hi _ => lo ≤ hi
  | ParamSpec.catP _ choices => choices ≠ []

instance : (p : ParamSpec) → Decidable (ParamSpec.rangeBounded p)
  | ParamSpec.intP _ lo hi => inferInstanceAs (Decidable (lo ≤ hi))
  | ParamSpec.floatP _ lo hi _ => inferInstanceAs (Decidable (lo ≤ hi))
  | ParamSpec.catP _ choices => inferInstanceAs (Decidable (choices ≠ []))

/-- Family-specific hyperparameter distributions suggested by the
objective, lines 670-713 of enhanced_models.py, translated literally
(0.01 = 1/100, 0.3 = 3/10, 0.6 = 3/5, 0.5 = 1/2, 0.1 = 1/10,
0.001 = 1/1000); an unknown or unavailable family suggests nothing. -/
def hyperparamSpace (hasXGB hasLGB : Bool) (modelType : String) : List ParamSpec :=
  if modelType = "rf" then
    [ParamSpec.intP "n_estimators" 50 300,
     ParamSpec.intP "max_depth" 3 20,
     ParamSpec.intP "min_samples_split" 2 20,
     ParamSpec.intP "min_samples_leaf" 1 10]
  else if modelType = "xgb" ∧ hasXGB = true then
    [ParamSpec.intP "n_estimators" 50 300,
     ParamSpec.floatP "learning_rate" (1/100) (3/10) false,
     ParamSpec.intP "max_depth" 3 10,
     ParamSpec.floatP "subsample" (3/5) 1 false,
     ParamSpec.floatP "colsample_bytree" (3/5) 1 false]
  else if modelType = "lgb" ∧ hasLGB = true then
    [ParamSpec.intP "n_estimators" 50 300,
     ParamSpec.floatP "learning_rate" (1/100) (3/10) false,
     ParamSpec.intP "num_leaves" 10 100,
     ParamSpec.floatP "feature_fraction" (1/2) 1 false,
     ParamSpec.floatP "bagging_fraction" (1/2) 1 false]
  else if modelType = "svm" then
    [ParamSpec.floatP "C" (1/10) 100 true,
     ParamSpec.catP "gamma" ["scale", "auto"],
     ParamSpec.catP "kernel" ["linear", "rbf", "poly"]]
  else if modelType = "linear" then
    [ParamSpec.catP "regularization" ["none", "ridge", "lasso"],
     ParamSpec.floatP "alpha" (1/1000) 10 true]
  else []

/-- First float sampling instruction with the given parameter name, as the
triple of its bounds and log-scale flag. -/
def findFloatSpec : List ParamSpec → String → Option (ℚ × ℚ × Bool)
  | [], _ => none
  | ParamSpec.floatP n lo hi lg :: rest, name =>
      if n = name then some (lo, hi, lg) else findFloatSpec rest name
  | _ :: rest, name => findFloatSpec rest name

/-- Value drawn by optuna suggest_float on a linear scale (log false):
the affine interpolation of the bounds at position u of the unit
interval. -/
def uniformDraw (lo hi u : ℚ) : ℚ := lo + u * (hi - lo)

/-- An optuna study as created by AutoMLModel.fit, line 643. Modelled from
the documented behavior of the external optuna dependency: create_study
called with only a direction builds a TPESampler with seed None, whose
random state is drawn from the ambient process entropy at creation time;
only an explicitly seeded sampler makes sampling reproducible. The fit
method passes no sampler and AutoMLModel exposes no seed parameter, so
the sampler state is whatever entropy the process happens to hold. -/
structure Study where
  direction : Direction
  samplerState : ℕ

/-- The create_study call of line 643: direction is the only argument the
code supplies; the sampler state comes from the ambient entropy. -/
def createStudy (direction : Direction) (ambientEntropy : ℕ) : Study :=
  { direction := direction, samplerState := ambientEntropy }

/-- First draw of suggest_categorical with the model_type choice list
(line 665) under the seeded sampler of the study: a uniform draw steered
by the sampler state (minimal faithful model of a seeded RNG draw - the
draw is a function of the state, and distinct states can select distinct
tags). -/
def firstSampledTag (modelTypes : List String) (study : Study) : String :=
  modelTypes.getD (study.samplerState % modelTypes.length) ""

/-- The first (tag) sampled by the study that AutoMLModel.fit creates, as
a function of the ambient entropy: no argument of fit or of the
AutoMLModel constructor feeds this value. -/
def fitFirstSampledTag (modelTypes : List String) (ambientEntropy : ℕ) : String :=
  firstSampledTag modelTypes (createStudy Direction.minimize ambientEntropy)

/-- Names the module-scope sklearn.model_selection import of line 34
binds in enhanced_models.py: train_test_split is not among them, and
the only other import of that name in the file is local to
EnsembleModel._fit_voting (line 160), which binds nothing outside that
method. -/
def moduleModelSelectionImports : List String :=
  ["GridSearchCV", "RandomizedSearchCV", "cross_val_score"]

/-- Message of the exception raised when the unbound name
train_test_split is evaluated. -/
def nameErrorTrainTestSplit : String :=
  "NameError: name train_test_split is not defined"

/-- XGBoostModel.fit, lines 268-292: the first statement of the body
evaluates train_test_split(X, y, test_size=0.2, random_state=42), and
that name resolves against the module scope, where it is unbound - so
the method raises NameError before the native estimator is fitted on
anything. The success branch records the sample count the rest of the
body would train the native estimator on (the train part of the 80/20
split: n minus the ceiling of a fifth of n) and is dead code, exactly
as lines 272-292 are. The result is the number of supplied samples
actually used for training, or the propagated exception. -/
def XGBoostModel.fit (n : ℕ) : Except String ℕ :=
  if "train_test_split" ∈ moduleModelSelectionImports then
    Except.ok (n - (n + 4) / 5)
  else Except.error nameErrorTrainTestSplit

/-- LightGBMModel.fit, lines 356-374: identical structure - its first
statement also evaluates the unbound name train_test_split and raises
NameError before any training. -/
def LightGBMModel.fit (n : ℕ) : Except String ℕ :=
  if "train_test_split" ∈ moduleModelSelectionImports then
    Except.ok (n - (n + 4) / 5)
  else Except.error nameErrorTrainTestSplit

/-- Number of samples AutoMLModel.fit passes to the final best_model.fit
call on line 655: the entire supplied dataset. -/
def finalFitSuppliedCount (n : ℕ) : ℕ := n

/-- Mutable state of one AutoMLModel instance that the fit and predict
methods consult: the fitted flag and the best model (by family tag).
Modelled from the spec for the part outside src: BaseModel of
qemlflow.core.models initializes the fitted flag to False (the
Capability Contract says a candidate model starts unfitted) and
best_model starts as None (line 605). -/
structure AutoMLState where
  isFitted : Bool
  bestModel : Option String
deriving DecidableEq

/-- State of a freshly constructed AutoMLModel, before any fit call. -/
def startState : AutoMLState := { isFitted := false, bestModel := none }

/-- Modelled from the spec: RandomForestModel lives in
qemlflow.core.models, which is not under src. Per the Capability
Contract, its fit takes the dataset and returns a metrics dictionary;
the default random forest the fallback constructs is represented by the
metrics its fit returns on the supplied dataset. -/
structure RandomForestFit where
  fitMetrics : Metrics

/-- What one AutoMLModel.fit call produces: the warnings it issues, the
metrics it returns, and the instance state it leaves behind. -/
structure FitReturn where
  warnings : List String
  metrics : Metrics
  state : AutoMLState
deriving DecidableEq

/-- The warning issued by the fallback branch, line 624. -/
def optunaWarning : String := "Optuna not available. Using default Random Forest."

/-- AutoMLModel.fit, lines 621-658, at the state level. Without optuna the
fallback branch warns, sets best_model to a default random forest, and
returns that model its fit metrics - the early return never reaches the
is_fitted assignment of line 656. With optuna, the search and the final
refit are summarized by their outcome (best tag and final metrics, or a
propagated fatal error such as best_params on an empty study), and on
success is_fitted is set. -/
def AutoMLModel.fit (hasOptuna : Bool) (s : AutoMLState) (rf : RandomForestFit)
    (searchOutcome : Except String (String × Metrics)) : Except String FitReturn :=
  if hasOptuna = false then
    Except.ok { warnings := [optunaWarning]
                metrics := rf.fitMetrics
                state := { s with bestModel := some "rf" } }
  else
    match searchOutcome with
    | Except.error e => Except.error e
    | Except.ok (tag, finalMetrics) =>
        Except.ok { warnings := []
                    metrics := finalMetrics
                    state := { isFitted := true, bestModel := some tag } }

/-- Message of the ValueError that AutoMLModel.predict raises before fit -
the error the spec taxonomy calls NotFittedError. -/
def notFittedMessage : String := "Model must be fitted before making predictions"

/-- AutoMLModel.predict, lines 819-823: raises unless the instance is
fitted and has a best model; otherwise delegates to the best model,
whose numeric output is the given prediction vector. -/
def AutoMLModel.predict (s : AutoMLState) (preds : List ℚ) : Except String (List ℚ) :=
  if s.isFitted = false ∨ s.bestModel = none then Except.error notFittedMessage
  else Except.ok preds

/-- Prediction of sklearn VotingRegressor on one input: the arithmetic
mean (np.average) of the predictions of its fitted base estimators.
Embedded from the documented semantics of the external sklearn
dependency. -/
def votingRegressorPredict (basePreds : List ℚ) : ℚ := mean basePreds

/-- EnsembleModel._fit_voting, lines 137-167, at the state level: each
base model is fitted, a VotingRegressor over the native estimators is
built and fitted on the full data (regression task), and is_fitted is
set to True on line 157 whatever it was before. -/
def EnsembleModel.fitVoting : Bool → Bool := fun _ => true

/-- EnsembleModel.predict, lines 212-216, for a regression voting
ensemble: raises unless fitted, otherwise returns the VotingRegressor
aggregate of the base estimator predictions at the input. -/
def EnsembleModel.predictVotingReg (isFitted : Bool) (basePreds : List ℚ) :
    Except String ℚ :=
  if isFitted = false then Except.error notFittedMessage
  else Except.ok (votingRegressorPredict basePreds)

/-- Amended failure-policy contract of claim C1, following the spec words
with the magnitude bound the counterexample forces: any exception of the
evaluation is caught and replaced by the fixed sentinel of the metric
(one million when the direction is minimize, minus one million when
maximize), and that sentinel is worse under the direction than any real
score of magnitude below one million. -/
def PenaltySentinelContract (taskType metric : String) (nClasses n cvFolds : ℕ)
    (o : EvalOracle) : Prop :=
  (∀ e, evalWithSplits metric (chosenSplits taskType nClasses n cvFolds) o =
      Except.error e →
      objectiveEval taskType metric nClasses n cvFolds o = penaltyScore metric) ∧
  penaltyScore metric =
    (if chooseDirection metric = Direction.minimize then ObjValue.exact 1000000
     else ObjValue.exact (-1000000)) ∧
  (∀ v, evalWithSplits metric (chosenSplits taskType nClasses n cvFolds) o =
      Except.ok v →
      ObjValue.magLtMillion v →
      (if chooseDirection metric = Direction.minimize
       then ObjValue.ltv v (penaltyScore metric)
       else ObjValue.ltv (penaltyScore metric) v))

/-- Amended fold-reduction property of claim C3: under the precondition
(fewer than 2 samples per requested fold) the evaluator sets the fold
count to n // 2, not max(2, n // 2); when the dataset has at least 4
samples that count is at least 2 and cross-validation proceeds with it,
and when it has fewer the count is invalid (below 2), the splitter
constructor raises, and the trial receives the penalty score instead of
being evaluated. -/
def FoldReductionAmended (n cvFolds : ℕ) (metric : String) (o : EvalOracle) : Prop :=
  chosenSplits "regression" 0 n cvFolds = n / 2 ∧
  (4 ≤ n → 2 ≤ n / 2) ∧
  (4 ≤ n → o.createModel = Except.ok () →
    evalWithSplits metric (chosenSplits "regression" 0 n cvFolds) o =
      scoreFromCV metric (fun scoring => o.crossVal scoring (n / 2))) ∧
  (n < 4 → objectiveEval "regression" metric 0 n cvFolds o = penaltyScore metric)

/-- Amended final-fit property of claim C5: the orchestrator does pass
the entire supplied dataset to the final fit of the best model (line
655), but for a gradient-boosted winning family that fit raises
NameError at its first statement - train_test_split is unbound at
module scope - so the exception propagates out of AutoMLModel.fit and
no supplied sample is used to train a returned final model. -/
def FinalFitAmended (n : ℕ) : Prop :=
  finalFitSuppliedCount n = n ∧
  XGBoostModel.fit n = Except.error nameErrorTrainTestSplit ∧
  LightGBMModel.fit n = Except.error nameErrorTrainTestSplit

/-- Amended hyperparameter-range property of claim C8: the learning rate
of both gradient-boosted families is drawn from the bounded positive
range between 1/100 and 3/10 on a linear scale (the log flag of the
suggest_float call is false, not true); every sampling instruction of
every family draws from a bounded nonempty range; the sampling-fraction
controls of the gradient-boosted families lie inside the unit interval,
while the regularization controls of the svm and linear families (C up
to 100, alpha up to 10, both log scale) are bounded but exceed it. -/
def HyperRangesAmended (u : ℚ) : Prop :=
  (∀ mt ∈ ["rf", "xgb", "lgb", "svm", "linear"],
    ∀ p ∈ hyperparamSpace true true mt, ParamSpec.rangeBounded p) ∧
  findFloatSpec (hyperparamSpace true true "xgb") "learning_rate" =
    some (1/100, 3/10, false) ∧
  findFloatSpec (hyperparamSpace true true "lgb") "learning_rate" =
    some (1/100, 3/10, false) ∧
  (0 < uniformDraw (1/100) (3/10) u ∧
   1/100 ≤ uniformDraw (1/100) (3/10) u ∧ uniformDraw (1/100) (3/10) u ≤ 3/10) ∧
  (∀ name ∈ ["subsample", "colsample_bytree"],
    ∃ lo hi lg, findFloatSpec (hyperparamSpace true true "xgb") name =
      some (lo, hi, lg) ∧ 0 ≤ lo ∧ hi ≤ 1) ∧
  (∀ name ∈ ["feature_fraction", "bagging_fraction"],
    ∃ lo hi lg, findFloatSpec (hyperparamSpace true true "lgb") name =
      some (lo, hi, lg) ∧ 0 ≤ lo ∧ hi ≤ 1) ∧
  findFloatSpec (hyperparamSpace true true "svm") "C" = some (1/10, 100, true) ∧
  findFloatSpec (hyperparamSpace true true "linear") "alpha" =
    some (1/1000, 10, true)

/-- Helper: a successful evaluation means the split count was valid and the
scoring dispatch succeeded with that split count. -/
theorem evalWithSplits_ok {metric : String} {k : ℕ} {o : EvalOracle} {v : ObjValue}
    (h : evalWithSplits metric k o = Except.ok v) :
    2 ≤ k ∧ scoreFromCV metric (fun scoring => o.crossVal scoring k) = Except.ok v := by
  by_cases hk : k < 2
  · exfalso
    unfold evalWithSplits at h
    rcases hcm : o.createModel with e | u <;> rw [hcm] at h <;>
      simp [Except.bind, if_pos hk] at h
  · refine ⟨by omega, ?_⟩
    unfold evalWithSplits at h
    rcases hcm : o.createModel with e | u
    · rw [hcm] at h; exact absurd h (by simp [Except.bind])
    · rw [hcm] at h
      simp only [Except.bind] at h
      rw [if_neg hk] at h
      exact h

/-- Helper: successful scoring under the rmse metric. -/
theorem scoreFromCV_rmse_ok {cv : String → Except String (List ℚ)} {v : ObjValue}
    (h : scoreFromCV "rmse" cv = Except.ok v) :
    ∃ scores, cv "neg_mean_squared_error" = Except.ok scores ∧
      v = (if 0 < scores.length then ObjValue.sqrtv (-(mean scores))
           else ObjValue.exact 1000000) := by
  unfold scoreFromCV at h
  rw [if_pos rfl] at h
  rcases hcv : cv "neg_mean_squared_error" with e | scores
  · rw [hcv] at h; exact absurd h (by simp [Except.map])
  · rw [hcv] at h
    simp only [Except.map, Except.ok.injEq] at h
    exact ⟨scores, rfl, h.symm⟩

/-- Helper: successful scoring under the r2 metric. -/
theorem scoreFromCV_r2_ok {cv : String → Except String (List ℚ)} {v : ObjValue}
    (h : scoreFromCV "r2" cv = Except.ok v) :
    ∃ scores, cv "r2" = Except.ok scores ∧
      v = (if 0 < scores.length then ObjValue.exact (mean scores)
           else ObjValue.exact (-1000000)) := by
  unfold scoreFromCV at h
  rw [if_neg (by decide), if_pos rfl] at h
  rcases hcv : cv "r2" with e | scores
  · rw [hcv] at h; exact absurd h (by simp [Except.map])
  · rw [hcv] at h
    simp only [Except.map, Except.ok.injEq] at h
    exact ⟨scores, rfl, h.symm⟩

/-- Helper: successful scoring under the accuracy metric. -/
theorem scoreFromCV_accuracy_ok {cv : String → Except String (List ℚ)} {v : ObjValue}
    (h : scoreFromCV "accuracy" cv = Except.ok v) :
    ∃ scores, cv "accuracy" = Except.ok scores ∧
      v = (if 0 < scores.length then ObjValue.exact (mean scores)
           else ObjValue.exact 0) := by
  unfold scoreFromCV at h
  rw [if_neg (by decide), if_neg (by decide), if_pos rfl] at h
  rcases hcv : cv "accuracy" with e | scores
  · rw [hcv] at h; exact absurd h (by simp [Except.map])
  · rw [hcv] at h
    simp only [Except.map, Except.ok.injEq] at h
    exact ⟨scores, rfl, h.symm⟩

/-- Helper: successful scoring under the auc metric, which has no branch
of its own and falls to the default mean-squared-error scoring. -/
theorem scoreFromCV_auc_ok {cv : String → Except String (List ℚ)} {v : ObjValue}
    (h : scoreFromCV "auc" cv = Except.ok v) :
    ∃ scores, cv "neg_mean_squared_error" = Except.ok scores ∧
      v = (if 0 < scores.length then ObjValue.exact (-(mean scores))
           else ObjValue.exact 1000000) := by
  unfold scoreFromCV at h
  rw [if_neg (by decide), if_neg (by decide), if_neg (by decide)] at h
  rcases hcv : cv "neg_mean_squared_error" with e | scores
  · rw [hcv] at h; exact absurd h (by simp [Except.map])
  · rw [hcv] at h
    simp only [Except.map, Except.ok.injEq] at h
    exact ⟨scores, rfl, h.symm⟩

/-- Helper: the failure-policy contract for the rmse metric. -/
theorem penalty_contract_rmse (taskType : String) (nClasses n cvFolds : ℕ)
    (o : EvalOracle) : PenaltySentinelContract taskType "rmse" nClasses n cvFolds o := by
  unfold PenaltySentinelContract
  refine ⟨?_, by decide, ?_⟩
  · intro e he
    unfold objectiveEval
    rw [he]
  · intro v hv hmag
    rcases evalWithSplits_ok hv with ⟨-, hs⟩
    rcases scoreFromCV_rmse_ok hs with ⟨scores, -, hveq⟩
    rw [if_pos (by decide : chooseDirection "rmse" = Direction.minimize)]
    have hpen : penaltyScore "rmse" = ObjValue.exact 1000000 := by decide
    rw [hpen]
    subst hveq
    by_cases hl : 0 < scores.length
    · rw [if_pos hl] at hmag ⊢
      have hm : 0 ≤ -(mean scores) ∧ -(mean scores) < 1000000 ^ 2 := hmag
      exact ⟨by norm_num, hm.2⟩
    · rw [if_neg hl] at hmag
      exact absurd hmag (by decide)

/-- Helper: the failure-policy contract for the r2 metric. -/
theorem penalty_contract_r2 (taskType : String) (nClasses n cvFolds : ℕ)
    (o : EvalOracle) : PenaltySentinelContract taskType "r2" nClasses n cvFolds o := by
  unfold PenaltySentinelContract
  refine ⟨?_, by decide, ?_⟩
  · intro e he
    unfold objectiveEval
    rw [he]
  · intro v hv hmag
    rcases evalWithSplits_ok hv with ⟨-, hs⟩
    rcases scoreFromCV_r2_ok hs with ⟨scores, -, hveq⟩
    rw [if_neg (by decide : ¬ chooseDirection "r2" = Direction.minimize)]
    have hpen : penaltyScore "r2" = ObjValue.exact (-1000000) := by decide
    rw [hpen]
    subst hveq
    by_cases hl : 0 < scores.length
    · rw [if_pos hl] at hmag ⊢
      have habs : |mean scores| < (1000000 : ℚ) := hmag
      exact (abs_lt.mp habs).1
    · rw [if_neg hl] at hmag
      exact absurd hmag (by decide)

/-- Helper: the failure-policy contract for the accuracy metric. -/
theorem penalty_contract_accuracy (taskType : String) (nClasses n cvFolds : ℕ)
    (o : EvalOracle) :
    PenaltySentinelContract taskType "accuracy" nClasses n cvFolds o := by
  unfold PenaltySentinelContract
  refine ⟨?_, by decide, ?_⟩
  · intro e he
    unfold objectiveEval
    rw [he]
  · intro v hv hmag
    rcases evalWithSplits_ok hv with ⟨-, hs⟩
    rcases scoreFromCV_accuracy_ok hs with ⟨scores, -, hveq⟩
    rw [if_neg (by decide : ¬ chooseDirection "accuracy" = Direction.minimize)]
    have hpen : penaltyScore "accuracy" = ObjValue.exact (-1000000) := by decide
    rw [hpen]
    subst hveq
    by_cases hl : 0 < scores.length
    · rw [if_pos hl] at hmag ⊢
      have habs : |mean scores| < (1000000 : ℚ) := hmag
      exact (abs_lt.mp habs).1
    · rw [if_neg hl]
      exact (by norm_num : (-1000000 : ℚ) < 0)

/-- Helper: the failure-policy contract for the auc metric. -/
theorem penalty_contract_auc (taskType : String) (nClasses n cvFolds : ℕ)
    (o : EvalOracle) : PenaltySentinelContract taskType "auc" nClasses n cvFolds o := by
  unfold PenaltySentinelContract
  refine ⟨?_, by decide, ?_⟩
  · intro e he
    unfold objectiveEval
    rw [he]
  · intro v hv hmag
    rcases evalWithSplits_ok hv with ⟨-, hs⟩
    rcases scoreFromCV_auc_ok hs with ⟨scores, -, hveq⟩
    rw [if_neg (by decide : ¬ chooseDirection "auc" = Direction.minimize)]
    have hpen : penaltyScore "auc" = ObjValue.exact (-1000000) := by decide
    rw [hpen]
    subst hveq
    by_cases hl : 0 < scores.length
    · rw [if_pos hl] at hmag ⊢
      have habs : |(-(mean scores))| < (1000000 : ℚ) := hmag
      exact (abs_lt.mp habs).1
    · rw [if_neg hl] at hmag
      exact absurd hmag (by decide)

/-- Helper: the mean of a one-element list is its element. -/
theorem mean_singleton (q : ℚ) : mean [q] = q := by
  simp [mean]

/-- Helper: the objective on a successful constant oracle returns
whatever the scoring dispatch produces, provided the split count is
valid. -/
theorem objectiveEval_ok_of_scoreFromCV {taskType metric : String}
    {nClasses n cvFolds : ℕ} {scores : List ℚ} {v : ObjValue}
    (hk : 2 ≤ chosenSplits taskType nClasses n cvFolds)
    (hs : scoreFromCV metric (fun _ => Except.ok scores) = Except.ok v) :
    objectiveEval taskType metric nClasses n cvFolds (constOracle scores) = v := by
  unfold objectiveEval
  have he : evalWithSplits metric (chosenSplits taskType nClasses n cvFolds)
      (constOracle scores) = Except.ok v := by
    unfold evalWithSplits constOracle
    simp only [Except.bind]
    rw [if_neg (by omega)]
    exact hs
  rw [he]

/-- Helper: r2 scoring of a single successful fold score. -/
theorem scoreFromCV_r2_single (q : ℚ) :
    scoreFromCV "r2" (fun _ => Except.ok [q]) = Except.ok (ObjValue.exact q) := by
  unfold scoreFromCV
  rw [if_neg (by decide), if_pos rfl]
  simp only [Except.map]
  rw [if_pos (by simp : 0 < ([q] : List ℚ).length), mean_singleton]

/-- Helper: default (auc) scoring of a single successful fold score:
the returned value is the negated neg-mean-squared-error, that is the
mean squared error itself. -/
theorem scoreFromCV_auc_single (q : ℚ) :
    scoreFromCV "auc" (fun _ => Except.ok [q]) =
      Except.ok (ObjValue.exact (-q)) := by
  unfold scoreFromCV
  rw [if_neg (by decide), if_neg (by decide), if_neg (by decide)]
  simp only [Except.map]
  rw [if_pos (by simp : 0 < ([q] : List ℚ).length), mean_singleton]

/-- Claim C1, counterexample: the fixed sentinel is not worse than every
real score. For the metric r2 the study direction is maximize and the
penalty is minus one million, but r2 (one minus the ratio of residual to
total sum of squares) is unbounded below, and a real evaluation whose
fold score is minus two million yields an objective value strictly below
the sentinel - a real score worse than the penalty. -/
theorem objective_penalty_sentinel_cx :
    metricAndDirection "r2" "regression" = ("r2", Direction.maximize) ∧
    objectiveEval "regression" "r2" 0 10 5 (constOracle [-2000000]) =
      ObjValue.exact (-2000000) ∧
    penaltyScore "r2" = ObjValue.exact (-1000000) ∧
    ObjValue.ltv (ObjValue.exact (-2000000)) (penaltyScore "r2") := by
  refine ⟨rfl, ?_, rfl, ?_⟩
  · exact objectiveEval_ok_of_scoreFromCV (by decide) (scoreFromCV_r2_single (-2000000))
  · show (-2000000 : ℚ) < -1000000
    norm_num

/-- Claim C1 (amended): one candidate evaluation never propagates an
exception - any exception during construction, splitter creation,
fitting, or scoring is caught and replaced by the fixed sentinel of the
metric (one million when the direction is minimize, minus one million
when maximize), and that sentinel is worse, under the comparison
direction of the chosen metric, than any real score of magnitude below
one million (the amendment: real scores of magnitude beyond the sentinel
can be worse than it). -/
theorem objective_penalty_sentinel
    (taskType metric : String) (nClasses n cvFolds : ℕ) (o : EvalOracle)
    (hm : metric = "rmse" ∨ metric = "r2" ∨ metric = "accuracy" ∨ metric = "auc") :
    PenaltySentinelContract taskType metric nClasses n cvFolds o := by
  rcases hm with rfl | rfl | rfl | rfl
  · exact penalty_contract_rmse taskType nClasses n cvFolds o
  · exact penalty_contract_r2 taskType nClasses n cvFolds o
  · exact penalty_contract_accuracy taskType nClasses n cvFolds o
  · exact penalty_contract_auc taskType nClasses n cvFolds o

/-- Witness for claim C1: the amended contract at the metric r2 on a
concrete dataset shape and a concrete successful oracle. -/
theorem objective_penalty_sentinel_witness :
    ("r2" = "rmse" ∨ "r2" = "r2" ∨ "r2" = "accuracy" ∨ "r2" = "auc") ∧
    PenaltySentinelContract "regression" "r2" 0 10 5 (constOracle [1]) :=
  ⟨by decide,
   objective_penalty_sentinel "regression" "r2" 0 10 5 (constOracle [1]) (by decide)⟩

/-- Claim C2: the code creates its optuna study with no sampler and no
seed (AutoMLModel.fit accepts only the dataset, and the constructor has
no seed parameter either), so the sampled sequence of tags follows the
ambient process entropy: two runs differing only in that ambient state
sample different first tags, and no fixed seed can be supplied to make
them agree. Shown at the two concrete ambient states 0 and 1 with the
default model type list of line 600. -/
theorem study_sampling_follows_ambient_entropy :
    fitFirstSampledTag ["rf", "xgb", "lgb", "svm", "linear"] 0 ≠
    fitFirstSampledTag ["rf", "xgb", "lgb", "svm", "linear"] 1 := by decide

/-- Claim C3, counterexample: for a regression dataset with 3 samples and
5 requested folds (fewer than 2 samples per fold), the code reduces the
split count to min(5, 3 div 2) = 1, not to max(2, 3 div 2) = 2, and with
that invalid count the sklearn splitter constructor raises, so the trial
is penalized instead of being evaluated with a reduced fold count. -/
theorem fold_reduction_cx :
    chosenSplits "regression" 0 3 5 = 1 ∧
    max 2 (3 / 2) = 2 ∧
    objectiveEval "regression" "r2" 0 3 5 (constOracle [0]) = penaltyScore "r2" := by
  decide

/-- Claim C3 (amended): when the requested fold count would leave fewer
than 2 samples per fold, the evaluator reduces the split count to
n div 2 (not max(2, n div 2)); with at least 4 samples that count is at
least 2 and cross-validation proceeds with it, while with fewer samples
the count is invalid and the trial receives the penalty score. -/
theorem fold_reduction_amended (n cvFolds : ℕ) (metric : String) (o : EvalOracle)
    (h : n < 2 * cvFolds) : FoldReductionAmended n cvFolds metric o := by
  have hk : chosenSplits "regression" 0 n cvFolds = n / 2 := by
    unfold chosenSplits
    rw [if_neg (by decide : ¬ ("regression" = "classification" ∧ 1 < (0 : ℕ)))]
    omega
  refine ⟨hk, by omega, ?_, ?_⟩
  · intro h4 hcm
    rw [hk]
    unfold evalWithSplits
    rw [hcm]
    simp only [Except.bind]
    rw [if_neg (by omega : ¬ n / 2 < 2)]
  · intro h4
    unfold objectiveEval
    rw [hk]
    unfold evalWithSplits
    rcases hcm : o.createModel with e | u
    · rfl
    · simp only [Except.bind]
      rw [if_pos (by omega : n / 2 < 2)]

/-- Witness for claim C3: the amended fold-reduction property at 10
samples and 6 requested folds (10 < 12, so fewer than 2 samples per
fold), with a concrete successful oracle. -/
theorem fold_reduction_amended_witness :
    10 < 2 * 6 ∧ FoldReductionAmended 10 6 "r2" (constOracle [0]) :=
  ⟨by decide, fold_reduction_amended 10 6 "r2" (constOracle [0]) (by decide)⟩

/-- Claim C4: with the metric auc the study direction is maximize, but the
objective has no auc branch - the metric falls to the default branch,
which returns the mean squared error (a cost: lower is better). The
evaluation with fold error 1 returns 1 and the one with fold error 4
returns 4, and the maximizing study prefers the larger value, that is
the worse candidate: the tracked direction disagrees with the
orientation of the returned value for auc. -/
theorem auc_direction_inconsistent :
    metricAndDirection "auc" "classification" = ("auc", Direction.maximize) ∧
    objectiveEval "classification" "auc" 2 10 5 (constOracle [-1]) =
      ObjValue.exact 1 ∧
    objectiveEval "classification" "auc" 2 10 5 (constOracle [-4]) =
      ObjValue.exact 4 ∧
    ObjValue.ltv (ObjValue.exact 1) (ObjValue.exact 4) := by
  refine ⟨rfl, ?_, ?_, ?_⟩
  · exact (objectiveEval_ok_of_scoreFromCV (by decide)
      (scoreFromCV_auc_single (-1))).trans (by norm_num)
  · exact (objectiveEval_ok_of_scoreFromCV (by decide)
      (scoreFromCV_auc_single (-4))).trans (by norm_num)
  · show (1 : ℚ) < 4
    norm_num

/-- Claim C5, counterexample: with 10 supplied samples and the winning
family xgb, it is false that every supplied sample is used to train the
returned final model - the orchestrator passes all 10 samples to
XGBoostModel.fit (line 655), but that method raises NameError at its
first statement, because train_test_split is bound neither by the
module import of line 34 nor anywhere else at module scope, so the
exception propagates and no trained final model is returned at all. -/
theorem final_fit_holdout_cx :
    finalFitSuppliedCount 10 = 10 ∧
    "train_test_split" ∉ moduleModelSelectionImports ∧
    XGBoostModel.fit 10 = Except.error nameErrorTrainTestSplit :=
  ⟨rfl, by decide, rfl⟩

/-- Claim C5 (amended): for every dataset size, the final fit call of
the orchestrator receives the entire supplied dataset, and for the
gradient-boosted winning families the invoked fit raises NameError
before any training, so the exception propagates out of the
orchestrator and none of the supplied samples trains a returned final
model. -/
theorem final_fit_amended (n : ℕ) : FinalFitAmended n :=
  ⟨rfl, rfl, rfl⟩

/-- Claim C6: when the optuna backend is unavailable, AutoMLModel.fit
does not raise for any instance state, default model and search outcome:
it returns successfully, issuing exactly the degradation warning, with
the default random forest recorded as the best model and with the
metrics of the fit of that random forest as its return value. -/
theorem fit_without_optuna_degrades :
    ∀ (s : AutoMLState) (rf : RandomForestFit)
      (searchOutcome : Except String (String × Metrics)),
      ∃ r, AutoMLModel.fit false s rf searchOutcome = Except.ok r ∧
        r.warnings = [optunaWarning] ∧
        r.metrics = rf.fitMetrics ∧
        r.state.bestModel = some "rf" := by
  intro s rf searchOutcome
  exact ⟨_, rfl, rfl, rfl, rfl⟩

/-- Claim C7: on a freshly constructed AutoMLModel instance, on which fit
has not been called, predict fails with the not-fitted error (the
ValueError of lines 821-822, the error the spec taxonomy calls
NotFittedError) for every input. -/
theorem predict_before_fit_fails :
    ∀ preds : List ℚ,
      AutoMLModel.predict startState preds = Except.error notFittedMessage :=
  fun _ => rfl

/-- Claim C8, counterexample: the learning-rate suggestions of the two
gradient-boosted families carry a false log flag - suggest_float is
called without log, so the draw is on a linear scale, not a logarithmic
one; and the regularization control of the svm family ranges up to 100,
which is not inside the unit interval. -/
theorem hyperparam_ranges_cx :
    findFloatSpec (hyperparamSpace true true "xgb") "learning_rate" =
      some (1/100, 3/10, false) ∧
    findFloatSpec (hyperparamSpace true true "lgb") "learning_rate" =
      some (1/100, 3/10, false) ∧
    findFloatSpec (hyperparamSpace true true "svm") "C" = some (1/10, 100, true) ∧
    ¬ ((100 : ℚ) ≤ 1) :=
  ⟨rfl, rfl, rfl, by norm_num⟩

/-- Claim C8 (amended): the learning rate of the gradient-boosted
families is drawn from the bounded positive range between 1/100 and 3/10
on a linear scale; every sampling instruction of every family draws from
a bounded nonempty range; the sampling-fraction controls of the
gradient-boosted families lie in the unit interval, while the svm and
linear regularization controls are bounded log-scale ranges that exceed
it. -/
theorem hyperparam_ranges_amended (u : ℚ) (h0 : 0 ≤ u) (h1 : u ≤ 1) :
    HyperRangesAmended u := by
  unfold HyperRangesAmended
  refine ⟨?_, rfl, rfl, ⟨?_, ?_, ?_⟩, ?_, ?_, rfl, rfl⟩
  · intro mt hmt p hp
    fin_cases hmt
    · simp [hyperparamSpace] at hp
      rcases hp with rfl | rfl | rfl | rfl <;> first | decide | norm_num [ParamSpec.rangeBounded]
    · simp [hyperparamSpace] at hp
      rcases hp with rfl | rfl | rfl | rfl | rfl <;> first | decide | norm_num [ParamSpec.rangeBounded]
    · simp [hyperparamSpace] at hp
      rcases hp with rfl | rfl | rfl | rfl | rfl <;> first | decide | norm_num [ParamSpec.rangeBounded]
    · simp [hyperparamSpace] at hp
      rcases hp with rfl | rfl | rfl <;> first | decide | norm_num [ParamSpec.rangeBounded]
    · simp [hyperparamSpace] at hp
      rcases hp with rfl | rfl <;> first | decide | norm_num [ParamSpec.rangeBounded]
  · unfold uniformDraw
    have hu : 0 ≤ u * (3/10 - 1/100 : ℚ) := mul_nonneg h0 (by norm_num)
    linarith
  · unfold uniformDraw
    have hu : 0 ≤ u * (3/10 - 1/100 : ℚ) := mul_nonneg h0 (by norm_num)
    linarith
  · unfold uniformDraw
    have hu : u * (3/10 - 1/100 : ℚ) ≤ 3/10 - 1/100 :=
      mul_le_of_le_one_left (by norm_num) h1
    linarith
  · intro name hn
    fin_cases hn
    · exact ⟨3/5, 1, false, rfl, by norm_num, by norm_num⟩
    · exact ⟨3/5, 1, false, rfl, by norm_num, by norm_num⟩
  · intro name hn
    fin_cases hn
    · exact ⟨1/2, 1, false, rfl, by norm_num, by norm_num⟩
    · exact ⟨1/2, 1, false, rfl, by norm_num, by norm_num⟩

/-- Witness for claim C8: the amended range property at the midpoint of
the unit interval. -/
theorem hyperparam_ranges_amended_witness :
    ((0 : ℚ) ≤ 1/2 ∧ (1/2 : ℚ) ≤ 1) ∧ HyperRangesAmended (1/2) :=
  ⟨⟨by norm_num, by norm_num⟩,
   hyperparam_ranges_amended (1/2) (by norm_num) (by norm_num)⟩

/-- Claim C9: a regression voting ensemble whose fit has completed (the
voting fit always leaves the fitted flag set) predicts, on any input,
the arithmetic mean of the base estimator predictions at that input; in
particular with two base models predicting 1 and 3 the ensemble
predicts 2. -/
theorem voting_regression_mean :
    (∀ basePreds,
      EnsembleModel.predictVotingReg (EnsembleModel.fitVoting false) basePreds =
        Except.ok (votingRegressorPredict basePreds)) ∧
    votingRegressorPredict [1, 3] = 2 := by
  constructor
  · intro basePreds; rfl
  · norm_num [votingRegressorPredict, mean]

/-- Claim C10: when optuna is unavailable, fit from the fresh state
returns successfully with the metrics of the default random forest, yet
leaves the fitted flag False (the early return of line 628 skips the
assignment of line 656), so every subsequent predict on that instance
raises the not-fitted ValueError even though fit completed and returned
metrics. -/
theorem fallback_fit_leaves_unfitted :
    ∀ (rf : RandomForestFit) (searchOutcome : Except String (String × Metrics))
      (preds : List ℚ),
      ∃ r, AutoMLModel.fit false startState rf searchOutcome = Except.ok r ∧
        r.metrics = rf.fitMetrics ∧
        r.state.isFitted = false ∧
        AutoMLModel.predict r.state preds = Except.error notFittedMessage := by
  intro rf searchOutcome preds
  exact ⟨_, rfl, rfl, rfl, rfl⟩

end ChemML
